import Mathlib

/-!
# Position Valuation Engine — verification of FelixPositionManager

Shallow embedding of the position-valuation logic of
`felix_telegram_bot.py` and `felix_positions.py`:

* `get_lending_position_bot` embeds `get_lending_position` of
  `felix_telegram_bot.py` (lines 113-166);
* `get_borrow_position` embeds `get_borrow_position` of
  `felix_telegram_bot.py` (lines 169-234) — the version in
  `felix_positions.py` (lines 185-251) is the same computation with
  `borrow_shares_decimals` fixed to `borrow_decimals`, see
  `get_borrow_position_fp`;
* `get_lending_position_fp` embeds `get_lending_position` of
  `felix_positions.py` (lines 88-182), including its round-trips of the
  raw integers through CPython float64 arithmetic, which are modelled
  exactly (`flQ` and friends).

Conventions of the embedding:

* On-chain integers (wei amounts, shares, totals) are `ℕ` — Python ints
  are arbitrary precision and the chain only delivers non-negative values.
* The RPC reads `balanceOf`, `totalAssets`, `totalSupply`,
  `market(...)` and `position(...)` are modelled as already-fetched values
  (fields of `VaultRead` / `MarketState` / `UserPosition`): the claims under
  study all concern the computation on successfully-read data.
  The optional `convertToAssets` capability is modelled as
  `ℕ → Option ℕ`: `none` covers both an absent accessor and a reverting
  call (the source catches the exception and falls through).
* Python dict keys that a code path never sets are modelled as `none`
  fields of the result structures.
* The final displayed decimal values (`x / divisor` on a large int) are
  modelled as exact rational division.  Binary-float rounding of that last
  display step is abstracted away; where float round-off feeds back into
  the *integer* computation (only in `felix_positions.py`, which stores
  floats and reconstructs wei integers from them) it is modelled exactly.
-/

set_option maxRecDepth 100000

/-- The four quantities `get_lending_position` reads from a vault contract:
`balanceOf(user)`, `totalAssets()`, `totalSupply()`, and the optional
`convertToAssets` capability (`none` = accessor absent or call reverted). -/
structure VaultRead where
  balanceOf : ℕ
  totalAssets : ℕ
  totalSupply : ℕ
  convertToAssets : ℕ → Option ℕ

/-- The `position` dict built by `get_lending_position`.  A `none` field is
a key the corresponding code path never sets. -/
structure LendingPosition where
  shares_balance : ℚ
  vault_total_assets : Option ℚ := none
  vault_total_shares : Option ℚ := none
  assets_value : Option ℚ := none
  calculation_method : Option String := none
deriving DecidableEq

/-- Embedding of `get_lending_position` from `felix_telegram_bot.py`
(lines 113-166).  Mirrors the source: zero-share early return (no
`calculation_method` key), then `convertToAssets`
(tag `"convertToAssets"`), then the manual pool ratio
`(balance_shares_wei * total_assets_wei) // total_supply_wei`
(tag `"manual_ratio"`), else value 0 with tag `"zero_supply"`. -/
def get_lending_position_bot (r : VaultRead) (asset_decimals : ℕ) : LendingPosition :=
  let balance_shares_wei := r.balanceOf
  -- shares = balance_shares_wei / 1e18 ; the float is zero iff the integer is
  let shares : ℚ := (balance_shares_wei : ℚ) / 10 ^ 18
  if shares = 0 then
    { shares_balance := shares, assets_value := some 0 }
  else
    let asset_divisor : ℕ := 10 ^ asset_decimals
    let total_assets_wei := r.totalAssets
    let total_supply_wei := r.totalSupply
    let vta : ℚ := (total_assets_wei : ℚ) / (asset_divisor : ℚ)
    let vts : ℚ := (total_supply_wei : ℚ) / 10 ^ 18
    match r.convertToAssets balance_shares_wei with
    | some assets_wei =>
        { shares_balance := shares, vault_total_assets := some vta,
          vault_total_shares := some vts,
          assets_value := some ((assets_wei : ℚ) / (asset_divisor : ℚ)),
          calculation_method := some "convertToAssets" }
    | none =>
        if 0 < total_supply_wei then
          let assets_wei := balance_shares_wei * total_assets_wei / total_supply_wei
          { shares_balance := shares, vault_total_assets := some vta,
            vault_total_shares := some vts,
            assets_value := some ((assets_wei : ℚ) / (asset_divisor : ℚ)),
            calculation_method := some "manual_ratio" }
        else
          { shares_balance := shares, vault_total_assets := some vta,
            vault_total_shares := some vts,
            assets_value := some 0,
            calculation_method := some "zero_supply" }

/-- The 4-tuple returned by `market(market_id)` on Morpho Blue. -/
structure MarketState where
  totalSupplyAssets : ℕ
  totalSupplyShares : ℕ
  totalBorrowAssets : ℕ
  totalBorrowShares : ℕ

/-- The tuple returned by `position(market_id, user)` on Morpho Blue. -/
structure UserPosition where
  supplyShares : ℕ
  borrowShares : ℕ
  collateral : ℕ

/-- The `position` dict built by `get_borrow_position`.  `health_factor`
is `none` when the source sets no `health_factor` key, `some ⊤` for
Python's `float('inf')`, and `some (q : ℚ)` for a finite ratio. -/
structure BorrowPosition where
  supply_shares : ℚ
  borrow_shares : ℚ
  collateral : ℚ
  borrowed : ℚ
  health_factor : Option (WithTop ℚ)
deriving DecidableEq

/-- The borrowed amount computed by `get_borrow_position`
(felix_telegram_bot.py lines 210-217): if
`total_borrow_shares > 0 and borrow_shares_wei > 0` then
`(borrow_shares_wei * total_borrow_assets) // total_borrow_shares`
converted with `borrow_decimals`, else `0`. -/
def borrowed_amount (market : MarketState) (user : UserPosition)
    (borrow_decimals : ℕ) : ℚ :=
  if 0 < market.totalBorrowShares ∧ 0 < user.borrowShares then
    ((user.borrowShares * market.totalBorrowAssets / market.totalBorrowShares : ℕ) : ℚ)
      / (10 ^ borrow_decimals : ℕ)
  else 0

/-- Embedding of `get_borrow_position` from `felix_telegram_bot.py`
(lines 169-234).  The health factor is `collateral / borrowed` when both
are positive, `float('inf')` (here `⊤`) when `borrowed == 0`, and the
`health_factor` key is never set when `borrowed > 0` and the collateral
is zero (neither branch of the source's `if`/`elif` fires). -/
def get_borrow_position (market : MarketState) (user : UserPosition)
    (collateral_decimals borrow_decimals borrow_shares_decimals : ℕ) :
    BorrowPosition :=
  let shares_divisor : ℕ := 10 ^ borrow_shares_decimals
  let collateral_divisor : ℕ := 10 ^ collateral_decimals
  let collateral : ℚ := (user.collateral : ℚ) / (collateral_divisor : ℚ)
  let borrowed : ℚ := borrowed_amount market user borrow_decimals
  let health_factor : Option (WithTop ℚ) :=
    if 0 < borrowed ∧ 0 < collateral then
      some ((collateral / borrowed : ℚ) : WithTop ℚ)
    else if borrowed = 0 then
      some ⊤
    else
      none
  { supply_shares := (user.supplyShares : ℚ) / 10 ^ 18,
    borrow_shares := (user.borrowShares : ℚ) / (shares_divisor : ℚ),
    collateral := collateral,
    borrowed := borrowed,
    health_factor := health_factor }

/-- `get_borrow_position` of `felix_positions.py` (lines 185-251) is the
same computation except that the displayed `borrow_shares` are divided by
`borrow_divisor` instead of a separate share divisor (line 221): it is the
bot version with `borrow_shares_decimals := borrow_decimals`. -/
def get_borrow_position_fp (market : MarketState) (user : UserPosition)
    (collateral_decimals borrow_decimals : ℕ) : BorrowPosition :=
  get_borrow_position market user collateral_decimals borrow_decimals borrow_decimals

/-! ## Shape lemmas for the vault valuation -/

lemma shares_eq_zero_iff (b : ℕ) : ((b : ℚ) / 10 ^ 18 = 0) ↔ b = 0 := by
  rw [div_eq_zero_iff]
  norm_num

/-- Zero share balance: early return, value 0, no `calculation_method` key,
totals not even read into the dict. -/
lemma get_lending_position_bot_zero (r : VaultRead) (d : ℕ)
    (h : r.balanceOf = 0) :
    get_lending_position_bot r d = { shares_balance := 0, assets_value := some 0 } := by
  simp only [get_lending_position_bot, h]
  rw [if_pos (by norm_num)]
  simp

/-- Positive balance and a successful `convertToAssets` call. -/
lemma get_lending_position_bot_convert (r : VaultRead) (d : ℕ) (aw : ℕ)
    (h : r.balanceOf ≠ 0) (hc : r.convertToAssets r.balanceOf = some aw) :
    get_lending_position_bot r d =
      { shares_balance := (r.balanceOf : ℚ) / 10 ^ 18,
        vault_total_assets := some ((r.totalAssets : ℚ) / ((10 ^ d : ℕ) : ℚ)),
        vault_total_shares := some ((r.totalSupply : ℚ) / 10 ^ 18),
        assets_value := some ((aw : ℚ) / ((10 ^ d : ℕ) : ℚ)),
        calculation_method := some "convertToAssets" } := by
  simp only [get_lending_position_bot, hc]
  rw [if_neg (by simp [shares_eq_zero_iff, h])]

/-- Positive balance, no (or failing) conversion, positive total supply:
the manual pool ratio. -/
lemma get_lending_position_bot_ratio (r : VaultRead) (d : ℕ)
    (h : r.balanceOf ≠ 0) (hc : r.convertToAssets r.balanceOf = none)
    (ht : 0 < r.totalSupply) :
    get_lending_position_bot r d =
      { shares_balance := (r.balanceOf : ℚ) / 10 ^ 18,
        vault_total_assets := some ((r.totalAssets : ℚ) / ((10 ^ d : ℕ) : ℚ)),
        vault_total_shares := some ((r.totalSupply : ℚ) / 10 ^ 18),
        assets_value :=
          some (((r.balanceOf * r.totalAssets / r.totalSupply : ℕ) : ℚ) / ((10 ^ d : ℕ) : ℚ)),
        calculation_method := some "manual_ratio" } := by
  simp only [get_lending_position_bot, hc]
  rw [if_neg (by simp [shares_eq_zero_iff, h]), if_pos ht]

/-- Positive balance, no (or failing) conversion, zero total supply. -/
lemma get_lending_position_bot_zero_supply (r : VaultRead) (d : ℕ)
    (h : r.balanceOf ≠ 0) (hc : r.convertToAssets r.balanceOf = none)
    (ht : r.totalSupply = 0) :
    get_lending_position_bot r d =
      { shares_balance := (r.balanceOf : ℚ) / 10 ^ 18,
        vault_total_assets := some ((r.totalAssets : ℚ) / ((10 ^ d : ℕ) : ℚ)),
        vault_total_shares := some ((r.totalSupply : ℚ) / 10 ^ 18),
        assets_value := some 0,
        calculation_method := some "zero_supply" } := by
  simp only [get_lending_position_bot, hc]
  rw [if_neg (by simp [shares_eq_zero_iff, h]), if_neg (by simp [ht])]

/-! ## Claims about the vault valuation -/

/-- C1: with no (or a failing) direct conversion, a positive share balance
and positive vault total shares, the value is
`(user_share_balance * vault_total_assets) // vault_total_shares` computed
on the base-unit integers and only then divided by `10 ^ asset_decimals`,
with the pool-ratio method tag (source string `"manual_ratio"`). -/
theorem lending_pool_ratio_value (r : VaultRead) (d : ℕ)
    (hb : 0 < r.balanceOf)
    (hc : r.convertToAssets r.balanceOf = none)
    (ht : 0 < r.totalSupply) :
    (get_lending_position_bot r d).assets_value
      = some (((r.balanceOf * r.totalAssets / r.totalSupply : ℕ) : ℚ) / ((10 ^ d : ℕ) : ℚ))
    ∧ (get_lending_position_bot r d).calculation_method = some "manual_ratio" := by
  rw [get_lending_position_bot_ratio r d (Nat.pos_iff_ne_zero.mp hb) hc ht]
  exact ⟨rfl, rfl⟩

/-- C1 witness: the spec's concrete scenario — `total_assets = 10_000_000`
(6 decimals), `total_shares = 9_500_000_000_000_000_000`, sole holder —
values to exactly `10` with the pool-ratio tag. -/
theorem lending_pool_ratio_value_witness :
    (get_lending_position_bot
        ⟨9500000000000000000, 10000000, 9500000000000000000, fun _ => none⟩ 6).assets_value
      = some 10
    ∧ (get_lending_position_bot
        ⟨9500000000000000000, 10000000, 9500000000000000000, fun _ => none⟩ 6).calculation_method
      = some "manual_ratio" := by
  have h := lending_pool_ratio_value
    ⟨9500000000000000000, 10000000, 9500000000000000000, fun _ => none⟩ 6
    (by norm_num) rfl (by norm_num)
  refine ⟨?_, h.2⟩
  rw [h.1]
  norm_num

/-- C5: with a positive share balance and a successful direct
`convertToAssets` call, the returned value is the conversion result divided
by `10 ^ asset_decimals` with the direct-conversion tag (source string
`"convertToAssets"`), whatever the vault totals are: the pool ratio is
never used or mixed in. -/
theorem lending_direct_conversion_priority (r : VaultRead) (d : ℕ) (aw : ℕ)
    (hb : 0 < r.balanceOf)
    (hc : r.convertToAssets r.balanceOf = some aw) :
    (get_lending_position_bot r d).assets_value = some ((aw : ℚ) / ((10 ^ d : ℕ) : ℚ))
    ∧ (get_lending_position_bot r d).calculation_method = some "convertToAssets" := by
  rw [get_lending_position_bot_convert r d aw (Nat.pos_iff_ne_zero.mp hb) hc]
  exact ⟨rfl, rfl⟩

/-- C5 witness: a vault whose direct conversion reports 7_000_000 while the
pool ratio of the supplied non-zero totals would give 5: the result is the
direct conversion's 7, tagged `"convertToAssets"`, and demonstrably not the
ratio value. -/
theorem lending_direct_conversion_priority_witness :
    (get_lending_position_bot
        ⟨1000000000000000000, 5000000, 1000000000000000000, fun _ => some 7000000⟩ 6).assets_value
      = some 7
    ∧ (get_lending_position_bot
        ⟨1000000000000000000, 5000000, 1000000000000000000, fun _ => some 7000000⟩ 6).calculation_method
      = some "convertToAssets"
    ∧ ((1000000000000000000 * 5000000 / 1000000000000000000 : ℕ) : ℚ) / ((10 ^ 6 : ℕ) : ℚ)
      = 5 := by
  have h := lending_direct_conversion_priority
    ⟨1000000000000000000, 5000000, 1000000000000000000, fun _ => some 7000000⟩ 6 7000000
    (by norm_num) rfl
  refine ⟨?_, h.2, by norm_num⟩
  rw [h.1]
  norm_num

/-- C6 counterexample: the claim says a zero share balance yields value 0
*with a method tag* (spec tag `no-balance`).  On the code the early return
for a zero balance sets no `calculation_method` key at all — here with
non-trivial totals supplied, the tag is absent (`none`), so no method tag
is returned. -/
theorem lending_zero_balance_tag_cex :
    (get_lending_position_bot ⟨0, 5000000, 1000000000000000000, fun _ => none⟩ 6).calculation_method
      = none
    ∧ ∀ t : String,
        (get_lending_position_bot ⟨0, 5000000, 1000000000000000000, fun _ => none⟩ 6).calculation_method
          ≠ some t := by
  rw [get_lending_position_bot_zero _ 6 rfl]
  exact ⟨rfl, fun t h => by simp at h⟩

/-- C6 (amended): a zero share balance always yields value 0 and *no*
method tag — the zero-balance outcome is distinguished by the absence of a
`calculation_method` key, not by a `no-balance` tag — regardless of the
vault totals and conversion capability supplied. -/
theorem lending_zero_balance_value (r : VaultRead) (d : ℕ)
    (h : r.balanceOf = 0) :
    (get_lending_position_bot r d).assets_value = some 0
    ∧ (get_lending_position_bot r d).calculation_method = none := by
  rw [get_lending_position_bot_zero r d h]
  exact ⟨rfl, rfl⟩

/-- C6 witness: explicit zero balance with non-zero totals. -/
theorem lending_zero_balance_value_witness :
    (get_lending_position_bot ⟨0, 123456, 789000000000000000000, fun _ => some 999⟩ 18).assets_value
      = some 0
    ∧ (get_lending_position_bot ⟨0, 123456, 789000000000000000000, fun _ => some 999⟩ 18).calculation_method
      = none :=
  lending_zero_balance_value ⟨0, 123456, 789000000000000000000, fun _ => some 999⟩ 18 rfl

/-- C7 counterexample: the claim extends the zero-supply outcome to *any*
`s ≥ 0`, but for `s = 0` the code takes the zero-balance early return and
sets no method tag, so the result is not tagged `zero-supply` (source
string `"zero_supply"`). -/
theorem lending_zero_supply_tag_cex :
    (get_lending_position_bot ⟨0, 5000000, 0, fun _ => none⟩ 6).calculation_method
      ≠ some "zero_supply"
    ∧ (get_lending_position_bot ⟨0, 5000000, 0, fun _ => none⟩ 6).calculation_method
      = none := by
  rw [get_lending_position_bot_zero _ 6 rfl]
  exact ⟨by simp, rfl⟩

/-- C7 (amended): for a *positive* share balance, no (or failing) direct
conversion and zero vault total shares, the value is 0 with the
zero-supply tag (source string `"zero_supply"`); at `s = 0` the value is
still 0 but the zero-balance early return leaves the method tag unset. -/
theorem lending_zero_supply_value (r : VaultRead) (d : ℕ)
    (hb : 0 < r.balanceOf)
    (hc : r.convertToAssets r.balanceOf = none)
    (ht : r.totalSupply = 0) :
    (get_lending_position_bot r d).assets_value = some 0
    ∧ (get_lending_position_bot r d).calculation_method = some "zero_supply" := by
  rw [get_lending_position_bot_zero_supply r d (Nat.pos_iff_ne_zero.mp hb) hc ht]
  exact ⟨rfl, rfl⟩

/-- C7 witness: positive balance, empty vault. -/
theorem lending_zero_supply_value_witness :
    (get_lending_position_bot ⟨42000000000000000000, 5000000, 0, fun _ => none⟩ 6).assets_value
      = some 0
    ∧ (get_lending_position_bot ⟨42000000000000000000, 5000000, 0, fun _ => none⟩ 6).calculation_method
      = some "zero_supply" :=
  lending_zero_supply_value ⟨42000000000000000000, 5000000, 0, fun _ => none⟩ 6
    (by norm_num) rfl rfl

/-- C9: with fixed totals, positive vault total shares and no direct
conversion, the returned value is non-decreasing in the user share
balance. -/
theorem lending_pool_ratio_monotone (A T d s₁ s₂ : ℕ)
    (ht : 0 < T) (hs : s₁ ≤ s₂) :
    (get_lending_position_bot ⟨s₁, A, T, fun _ => none⟩ d).assets_value.getD 0
      ≤ (get_lending_position_bot ⟨s₂, A, T, fun _ => none⟩ d).assets_value.getD 0 := by
  have key : ∀ s : ℕ,
      (get_lending_position_bot ⟨s, A, T, fun _ => none⟩ d).assets_value.getD 0
        = ((s * A / T : ℕ) : ℚ) / ((10 ^ d : ℕ) : ℚ) := by
    intro s
    rcases Nat.eq_zero_or_pos s with hz | hp
    · subst hz
      rw [get_lending_position_bot_zero _ d rfl]
      simp [Nat.zero_div]
    · rw [get_lending_position_bot_ratio _ d (Nat.pos_iff_ne_zero.mp hp) rfl ht]
      rfl
  rw [key s₁, key s₂]
  have hnum : (s₁ * A / T : ℕ) ≤ (s₂ * A / T : ℕ) :=
    Nat.div_le_div_right (Nat.mul_le_mul_right A hs)
  have hden : (0 : ℚ) < ((10 ^ d : ℕ) : ℚ) := by positivity
  have hcast : ((s₁ * A / T : ℕ) : ℚ) ≤ ((s₂ * A / T : ℕ) : ℚ) := by exact_mod_cast hnum
  exact (div_le_div_iff_of_pos_right hden).mpr hcast

/-- C9 witness: a concrete instance of the monotonicity. -/
theorem lending_pool_ratio_monotone_witness :
    (get_lending_position_bot
        ⟨3000000000000000000, 10000000, 10000000000000000000, fun _ => none⟩ 6).assets_value.getD 0
      ≤ (get_lending_position_bot
        ⟨5000000000000000000, 10000000, 10000000000000000000, fun _ => none⟩ 6).assets_value.getD 0 :=
  lending_pool_ratio_monotone 10000000 10000000000000000000 6
    3000000000000000000 5000000000000000000 (by norm_num) (by norm_num)

/-! ## Claims about the pooled-debt accounting -/

/-- C2: when the market has borrow shares and the user holds borrow
shares, the borrowed amount is
`(user_borrow_shares * market_total_borrow_assets) // market_total_borrow_shares`
on the base-unit integers, divided by `10 ^ borrow_decimals` afterwards;
in every other case it is 0. -/
theorem borrow_borrowed_amount (m : MarketState) (u : UserPosition)
    (cd bd bsd : ℕ) :
    (0 < m.totalBorrowShares ∧ 0 < u.borrowShares →
      (get_borrow_position m u cd bd bsd).borrowed
        = ((u.borrowShares * m.totalBorrowAssets / m.totalBorrowShares : ℕ) : ℚ)
            / ((10 ^ bd : ℕ) : ℚ))
    ∧ (¬(0 < m.totalBorrowShares ∧ 0 < u.borrowShares) →
      (get_borrow_position m u cd bd bsd).borrowed = 0) := by
  constructor <;> intro h <;>
    simp [get_borrow_position, borrowed_amount, h]

/-- C2 witness: the spec's concrete scenario —
`market_total_borrow_assets = 1_000_000`,
`market_total_borrow_shares = 1_000_000`, `user_borrow_shares = 500_000`,
`user_collateral_base = 2_000_000`, 6/6 decimals — gives borrowed 0.5,
collateral 2 and health ratio 4. -/
theorem borrow_borrowed_amount_witness :
    (get_borrow_position ⟨0, 0, 1000000, 1000000⟩ ⟨0, 500000, 2000000⟩ 6 6 18).borrowed
      = 1 / 2
    ∧ (get_borrow_position ⟨0, 0, 1000000, 1000000⟩ ⟨0, 500000, 2000000⟩ 6 6 18).collateral
      = 2
    ∧ (get_borrow_position ⟨0, 0, 1000000, 1000000⟩ ⟨0, 500000, 2000000⟩ 6 6 18).health_factor
      = some ((4 : ℚ) : WithTop ℚ) := by
  have h := (borrow_borrowed_amount ⟨0, 0, 1000000, 1000000⟩ ⟨0, 500000, 2000000⟩ 6 6 18).1
    ⟨by norm_num, by norm_num⟩
  refine ⟨?_, ?_, ?_⟩
  · rw [h]; norm_num
  · norm_num [get_borrow_position]
  · norm_num [get_borrow_position, borrowed_amount]

/-- C3: whenever the computed borrowed amount is zero — in particular for
zero user borrow shares — the health factor is the distinguished unbounded
value (`float('inf')`), regardless of the collateral, including zero
collateral with zero debt. -/
theorem borrow_zero_debt_unbounded (m : MarketState) (u : UserPosition)
    (cd bd bsd : ℕ)
    (h : (get_borrow_position m u cd bd bsd).borrowed = 0) :
    (get_borrow_position m u cd bd bsd).health_factor = some ⊤ := by
  simp only [get_borrow_position] at h ⊢
  simp [h]

/-- C3 witness: zero borrow shares and zero collateral still give the
unbounded ratio. -/
theorem borrow_zero_debt_unbounded_witness :
    (get_borrow_position ⟨5, 5, 5, 5⟩ ⟨0, 0, 0⟩ 6 6 18).health_factor = some ⊤ :=
  borrow_zero_debt_unbounded ⟨5, 5, 5, 5⟩ ⟨0, 0, 0⟩ 6 6 18
    (by norm_num [get_borrow_position, borrowed_amount])

/-- C4 counterexample: the claim says positive debt with zero collateral
yields health ratio 0.  On the code neither health branch fires
(`borrowed > 0 and collateral > 0` is false, `borrowed == 0` is false), so
the `health_factor` key is never set: the result carries no ratio at all,
not the value 0. -/
theorem borrow_zero_collateral_ratio_cex :
    0 < (get_borrow_position ⟨0, 0, 1000000, 1000000⟩ ⟨0, 500000, 0⟩ 6 6 18).borrowed
    ∧ (get_borrow_position ⟨0, 0, 1000000, 1000000⟩ ⟨0, 500000, 0⟩ 6 6 18).collateral = 0
    ∧ (get_borrow_position ⟨0, 0, 1000000, 1000000⟩ ⟨0, 500000, 0⟩ 6 6 18).health_factor
        ≠ some ((0 : ℚ) : WithTop ℚ)
    ∧ (get_borrow_position ⟨0, 0, 1000000, 1000000⟩ ⟨0, 500000, 0⟩ 6 6 18).health_factor
        = none := by
  have hnone :
      (get_borrow_position ⟨0, 0, 1000000, 1000000⟩ ⟨0, 500000, 0⟩ 6 6 18).health_factor
        = none := by
    norm_num [get_borrow_position, borrowed_amount]
  refine ⟨by norm_num [get_borrow_position, borrowed_amount],
    by norm_num [get_borrow_position], ?_, hnone⟩
  rw [hnone]
  simp

/-- C4 (amended): with a positive computed borrowed amount and zero
collateral, the operation returns a result whose health ratio is *absent*
(no `health_factor` key) — a defined outcome, not an error, but not the
value 0 the spec assigns. -/
theorem borrow_zero_collateral_no_health (m : MarketState) (u : UserPosition)
    (cd bd bsd : ℕ)
    (h1 : 0 < (get_borrow_position m u cd bd bsd).borrowed)
    (h2 : (get_borrow_position m u cd bd bsd).collateral = 0) :
    (get_borrow_position m u cd bd bsd).health_factor = none := by
  simp only [get_borrow_position] at h1 h2 ⊢
  rw [if_neg (by rintro ⟨-, hc⟩; rw [h2] at hc; exact lt_irrefl 0 hc),
    if_neg (ne_of_gt h1)]

/-- C4 witness for the amended claim. -/
theorem borrow_zero_collateral_no_health_witness :
    (get_borrow_position ⟨7, 7, 3000000, 1000000⟩ ⟨0, 400000, 0⟩ 6 6 18).health_factor
      = none :=
  borrow_zero_collateral_no_health ⟨7, 7, 3000000, 1000000⟩ ⟨0, 400000, 0⟩ 6 6 18
    (by norm_num [get_borrow_position, borrowed_amount])
    (by norm_num [get_borrow_position])

/-- C8: the computed borrowed amount never depends on
`borrow_shares_decimals` — two calls identical except for the share
decimals agree on `borrowed` (the share decimals only rescale the
displayed raw share count). -/
theorem borrow_borrowed_ignores_share_decimals (m : MarketState)
    (u : UserPosition) (cd bd bsd₁ bsd₂ : ℕ) :
    (get_borrow_position m u cd bd bsd₁).borrowed
      = (get_borrow_position m u cd bd bsd₂).borrowed := rfl

/-! ## Exact model of the CPython float64 arithmetic in `felix_positions.py`

`felix_positions.py` stores the decimal display values as binary floats and
later reconstructs wei integers from them
(`int(position["shares_balance"] * 1e18)`, lines 130/146/147), so the
float64 rounding feeds back into the integer pool-ratio computation.  The
model below reproduces IEEE-754 binary64 round-to-nearest-ties-to-even on
non-negative values in the normal range (all quantities arising here are
far from the subnormal and overflow thresholds), representing each float
exactly as a dyadic `m * 2 ^ e`.

CPython semantics modelled:
* `int / int` is a single correctly-rounded division of the exact quotient;
* `int / float` first converts the int to a float (rounding once), then
  divides (rounding again);
* `float * int` converts the int to a float — exact for the divisors
  `10 ^ d`, `d ≤ 22`, used here — and multiplies with one rounding;
* `int(...)` truncates toward zero.
-/

/-- Number of binary digits of `n` (0 for 0), with explicit fuel so that
kernel reduction terminates structurally; 1024 bits cover every quantity
in scope. -/
def bitsAux : ℕ → ℕ → ℕ
  | 0, _ => 0
  | f + 1, n => if n = 0 then 0 else bitsAux f (n / 2) + 1

/-- Bit length of a natural number. -/
def bits (n : ℕ) : ℕ := bitsAux 1024 n

/-- Decides `2 ^ k ≤ a / b` for positive naturals `a`, `b` and `k : ℤ`. -/
def twoPowLE (k : ℤ) (a b : ℕ) : Bool :=
  if 0 ≤ k then decide (b * 2 ^ k.toNat ≤ a) else decide (b ≤ a * 2 ^ (-k).toNat)

/-- `⌊log₂ (a / b)⌋` for positive naturals `a`, `b`: the bit-length guess
is exact or one too high, corrected by one comparison. -/
def floorLog2Q (a b : ℕ) : ℤ :=
  let k : ℤ := (bits a : ℤ) - (bits b : ℤ)
  if twoPowLE k a b then k else k - 1

/-- Round the exact quotient `a / b` (with `b > 0`) to the nearest
integer, ties to even. -/
def roundNearestEven (a b : ℕ) : ℕ :=
  let q := a / b
  let r := a % b
  if 2 * r < b then q
  else if b < 2 * r then q + 1
  else if q % 2 = 0 then q else q + 1

/-- A non-negative binary64 value represented exactly: `m * 2 ^ e`. -/
structure Dyadic where
  m : ℕ
  e : ℤ
deriving DecidableEq

/-- The nearest binary64 value to `a / b` (round-to-nearest, ties to
even): scale the quotient into `[2^52, 2^53)` and round.  A carry to
`2^53` leaves the represented value exact, so no renormalisation is
needed for a value model. -/
def flQ (a b : ℕ) : Dyadic :=
  if a = 0 then ⟨0, 0⟩
  else
    let e : ℤ := floorLog2Q a b - 52
    if 0 ≤ e then ⟨roundNearestEven a (b * 2 ^ e.toNat), e⟩
    else ⟨roundNearestEven (a * 2 ^ (-e).toNat) b, e⟩

/-- CPython conversion of a (non-negative) int to float. -/
def natToFloat (x : ℕ) : Dyadic := flQ x 1

/-- CPython `float / float` where the divisor is an exactly-representable
positive integer (`1e18`, `10 ** d` for `d ≤ 22`): one correct rounding. -/
def floatDivNat (x : Dyadic) (n : ℕ) : Dyadic :=
  if 0 ≤ x.e then flQ (x.m * 2 ^ x.e.toNat) n else flQ x.m (n * 2 ^ (-x.e).toNat)

/-- CPython `float * int` where the int is exactly representable: one
correct rounding of the exact product. -/
def floatMulNat (x : Dyadic) (n : ℕ) : Dyadic :=
  if 0 ≤ x.e then flQ (x.m * n * 2 ^ x.e.toNat) 1 else flQ (x.m * n) (2 ^ (-x.e).toNat)

/-- CPython `int(...)` on a non-negative float: truncation toward zero. -/
def floatTrunc (x : Dyadic) : ℕ :=
  if 0 ≤ x.e then x.m * 2 ^ x.e.toNat else x.m / 2 ^ (-x.e).toNat

/-- The exact rational value of a modelled float. -/
def Dyadic.toRat (x : Dyadic) : ℚ := (x.m : ℚ) * (2 : ℚ) ^ x.e

/-- The round-trip `x ↦ int(float(x / 1e18) * 1e18)` performed by
`felix_positions.py` on the user share balance (lines 102 and 130) and on
the vault total shares (lines 123 and 146). -/
def pyRoundTrip18 (x : ℕ) : ℕ :=
  floatTrunc (floatMulNat (floatDivNat (natToFloat x) (10 ^ 18)) (10 ^ 18))

/-- The round-trip `x ↦ int(float(x / D) * D)` performed by
`felix_positions.py` on the vault total assets (lines 115 and 147); here
the division is `int / int`, rounded once. -/
def pyRoundTripDiv (x D : ℕ) : ℕ :=
  floatTrunc (floatMulNat (flQ x D) D)

example : flQ 1 (10 ^ 18) = ⟨5192296858534828, -112⟩ := by decide
example : flQ 7000000 (10 ^ 6) = ⟨7881299347898368, -50⟩ := by decide
example : natToFloat (2 ^ 53 + 1) = ⟨4503599627370496, 1⟩ := by decide
example : pyRoundTrip18 (2 ^ 53 + 1) = 9007199254740992 := by decide
example : pyRoundTrip18 1152921504606859321 = 1152921504606859264 := by decide
example : pyRoundTrip18 (10 ^ 18) = 10 ^ 18 := by decide
example : pyRoundTripDiv 7000000 (10 ^ 6) = 7000000 := by decide

/-- A modelled float is positive exactly when its mantissa is. -/
lemma Dyadic.toRat_pos (x : Dyadic) : 0 < x.toRat ↔ 0 < x.m := by
  unfold Dyadic.toRat
  have h2 : (0 : ℚ) < (2 : ℚ) ^ x.e := zpow_pos (by norm_num) _
  constructor
  · intro h
    by_contra hm
    have : x.m = 0 := by omega
    rw [this] at h
    simp at h
  · intro h
    have : (0 : ℚ) < (x.m : ℚ) := by exact_mod_cast h
    positivity

/-- Multiplying a zero-mantissa float by an integer gives the zero float. -/
lemma floatMulNat_mzero (x : Dyadic) (n : ℕ) (h : x.m = 0) :
    floatMulNat x n = ⟨0, 0⟩ := by
  simp [floatMulNat, flQ, h]

/-- Embedding of `get_lending_position` from `felix_positions.py`
(lines 88-182).  Differences from the bot version are exactly the source's:
the decimal display values are stored as floats and the wei integers used
by the manual ratio are reconstructed from those floats
(`int(position["shares_balance"] * 1e18)` line 130,
`int(position["vault_total_shares"] * 1e18)` line 146,
`int(position["vault_total_assets"] * asset_divisor)` line 147), the
zero-supply branch sets no `calculation_method` key, a zero balance leaves
`assets_value` unset, and a zero reconstructed `total_supply_wei` would
raise `ZeroDivisionError` at line 150, caught by the outer handler into an
error dict — modelled as `none`.  The `balanceOf`/`totalAssets`/
`totalSupply` accessors are modelled as present and succeeding (the
configured vault ABIs expose all three), and the optional probes further
down (`getUserPosition`, supply-APY) as absent, leaving the dict as built
here. -/
def get_lending_position_fp (r : VaultRead) (asset_decimals : ℕ) :
    Option LendingPosition :=
  let sharesF : Dyadic := floatDivNat (natToFloat r.balanceOf) (10 ^ 18)
  let asset_divisor : ℕ := 10 ^ asset_decimals
  let vtaF : Dyadic := flQ r.totalAssets asset_divisor
  let vtsF : Dyadic := floatDivNat (natToFloat r.totalSupply) (10 ^ 18)
  let base : LendingPosition :=
    { shares_balance := sharesF.toRat,
      vault_total_assets := some vtaF.toRat,
      vault_total_shares := some vtsF.toRat }
  if 0 < sharesF.toRat then
    let balance_shares_wei := pyRoundTrip18 r.balanceOf
    match r.convertToAssets balance_shares_wei with
    | some assets_wei =>
        some { base with
               assets_value := some ((assets_wei : ℚ) / (asset_divisor : ℚ)),
               calculation_method := some "convertToAssets" }
    | none =>
        if 0 < vtsF.toRat then
          let total_supply_wei := pyRoundTrip18 r.totalSupply
          let total_assets_wei := pyRoundTripDiv r.totalAssets asset_divisor
          if total_supply_wei = 0 then none
          else
            let assets_wei := balance_shares_wei * total_assets_wei / total_supply_wei
            some { base with
                   assets_value := some ((assets_wei : ℚ) / (asset_divisor : ℚ)),
                   calculation_method := some "manual_ratio" }
        else
          some { base with assets_value := some 0 }
  else
    some base

/-- Shape of the `felix_positions.py` valuation on the manual-ratio path. -/
lemma get_lending_position_fp_ratio (r : VaultRead) (d : ℕ)
    (h1 : 0 < (floatDivNat (natToFloat r.balanceOf) (10 ^ 18)).toRat)
    (hc : r.convertToAssets (pyRoundTrip18 r.balanceOf) = none)
    (h2 : 0 < (floatDivNat (natToFloat r.totalSupply) (10 ^ 18)).toRat)
    (h3 : pyRoundTrip18 r.totalSupply ≠ 0) :
    get_lending_position_fp r d =
      some { shares_balance := (floatDivNat (natToFloat r.balanceOf) (10 ^ 18)).toRat,
             vault_total_assets := some (flQ r.totalAssets (10 ^ d)).toRat,
             vault_total_shares := some (floatDivNat (natToFloat r.totalSupply) (10 ^ 18)).toRat,
             assets_value := some
               (((pyRoundTrip18 r.balanceOf * pyRoundTripDiv r.totalAssets (10 ^ d)
                   / pyRoundTrip18 r.totalSupply : ℕ) : ℚ) / ((10 ^ d : ℕ) : ℚ)),
             calculation_method := some "manual_ratio" } := by
  simp only [get_lending_position_fp, hc]
  rw [if_pos h1, if_pos h2, if_neg h3]

/-- C10 counterexample: on the pool-ratio path the two implementations
disagree.  With `balanceOf = 1006642152510490784245`,
`totalAssets = 87894145631556550192`,
`totalSupply = 574042296803287381052` (all above `2 ^ 53`, 6 asset
decimals, no direct conversion), the bot version computes assets_wei
`154131415828301290834` from the raw integers while the float round-trips
of `felix_positions.py` yield `154131415828301298297`: the two
`assets_value` results differ. -/
theorem lending_two_versions_disagree_cex :
    (get_lending_position_fp
        ⟨1006642152510490784245, 87894145631556550192, 574042296803287381052,
          fun _ => none⟩ 6).map LendingPosition.assets_value
      = some (some (((154131415828301298297 : ℕ) : ℚ) / ((10 ^ 6 : ℕ) : ℚ)))
    ∧ (get_lending_position_bot
        ⟨1006642152510490784245, 87894145631556550192, 574042296803287381052,
          fun _ => none⟩ 6).assets_value
      = some (((154131415828301290834 : ℕ) : ℚ) / ((10 ^ 6 : ℕ) : ℚ))
    ∧ (((154131415828301298297 : ℕ) : ℚ) / ((10 ^ 6 : ℕ) : ℚ))
      ≠ (((154131415828301290834 : ℕ) : ℚ) / ((10 ^ 6 : ℕ) : ℚ)) := by
  have h1 : 0 < (floatDivNat (natToFloat
      (1006642152510490784245 : ℕ)) (10 ^ 18)).toRat := by
    rw [Dyadic.toRat_pos]
    decide
  have h2 : 0 < (floatDivNat (natToFloat
      (574042296803287381052 : ℕ)) (10 ^ 18)).toRat := by
    rw [Dyadic.toRat_pos]
    decide
  have h3 : pyRoundTrip18 (574042296803287381052 : ℕ) ≠ 0 := by decide
  have hfp := get_lending_position_fp_ratio
    ⟨1006642152510490784245, 87894145631556550192, 574042296803287381052,
      fun _ => none⟩ 6 h1 rfl h2 h3
  have hnum : (pyRoundTrip18 (1006642152510490784245 : ℕ)
      * pyRoundTripDiv (87894145631556550192 : ℕ) (10 ^ 6)
      / pyRoundTrip18 (574042296803287381052 : ℕ)) = 154131415828301298297 := by
    decide
  have hbot := get_lending_position_bot_ratio
    ⟨1006642152510490784245, 87894145631556550192, 574042296803287381052,
      fun _ => none⟩ 6 (by norm_num) rfl (by norm_num)
  refine ⟨?_, ?_, ?_⟩
  · rw [hfp]
    simp only [hnum]
    rfl
  · rw [hbot]
    norm_num
  · norm_num

/-- C10 (amended): the two implementations return the same `assets_value`
on a pool-ratio input precisely when the float64 round-trips of
`felix_positions.py` reconstruct the three raw integers exactly; stated
here for positive balance and supply with exact round-trips.  For
balances or totals larger than `2 ^ 53` — and for many smaller values —
the round-trips are lossy and the results can differ, as
`lending_two_versions_disagree_cex` shows. -/
theorem lending_two_versions_agree_on_exact (r : VaultRead) (d : ℕ)
    (hb0 : 0 < r.balanceOf) (ht0 : 0 < r.totalSupply)
    (hb : pyRoundTrip18 r.balanceOf = r.balanceOf)
    (ht : pyRoundTrip18 r.totalSupply = r.totalSupply)
    (ha : pyRoundTripDiv r.totalAssets (10 ^ d) = r.totalAssets)
    (hc : r.convertToAssets r.balanceOf = none) :
    (get_lending_position_fp r d).map LendingPosition.assets_value
      = some ((get_lending_position_bot r d).assets_value) := by
  have h1 : 0 < (floatDivNat (natToFloat r.balanceOf) (10 ^ 18)).toRat := by
    rw [Dyadic.toRat_pos]
    rcases Nat.eq_zero_or_pos (floatDivNat (natToFloat r.balanceOf) (10 ^ 18)).m with hm | hm
    · exfalso
      have hz : pyRoundTrip18 r.balanceOf = 0 := by
        unfold pyRoundTrip18
        rw [floatMulNat_mzero _ _ hm]
        rfl
      rw [hb] at hz
      omega
    · exact hm
  have h2 : 0 < (floatDivNat (natToFloat r.totalSupply) (10 ^ 18)).toRat := by
    rw [Dyadic.toRat_pos]
    rcases Nat.eq_zero_or_pos (floatDivNat (natToFloat r.totalSupply) (10 ^ 18)).m with hm | hm
    · exfalso
      have hz : pyRoundTrip18 r.totalSupply = 0 := by
        unfold pyRoundTrip18
        rw [floatMulNat_mzero _ _ hm]
        rfl
      rw [ht] at hz
      omega
    · exact hm
  have h3 : pyRoundTrip18 r.totalSupply ≠ 0 := by
    rw [ht]
    omega
  have hc' : r.convertToAssets (pyRoundTrip18 r.balanceOf) = none := by
    rw [hb]
    exact hc
  rw [get_lending_position_fp_ratio r d h1 hc' h2 h3,
    get_lending_position_bot_ratio r d (by omega) hc ht0]
  simp only [hb, ht, ha]
  rfl

/-- C10 witness: with all three quantities exactly representable through
the float round-trips (a 2-share balance, 4-share supply, 7 assets in
6-decimal base units), the two implementations agree. -/
theorem lending_two_versions_agree_on_exact_witness :
    (get_lending_position_fp
        ⟨2000000000000000000, 7000000, 4000000000000000000, fun _ => none⟩ 6).map
        LendingPosition.assets_value
      = some ((get_lending_position_bot
        ⟨2000000000000000000, 7000000, 4000000000000000000, fun _ => none⟩ 6).assets_value) :=
  lending_two_versions_agree_on_exact
    ⟨2000000000000000000, 7000000, 4000000000000000000, fun _ => none⟩ 6
    (by norm_num) (by norm_num) (by decide) (by decide) (by decide) rfl
